import Mathlib

/-!
Shallow embedding of the camera recording/upload pipeline of the
`smart_home-rpi` repository (files `src/sensors/camera.py` and
`src/utils/cloudflare.py`), with theorems settling the frozen claims.

External effects (the local filesystem, the device registry, the
`ffmpeg` subprocess, the R2 object-storage client, the camera handle)
are modelled explicitly: the filesystem is a finite set of paths, the
registry is a record of the device row plus traces of the
`update_device_state` and `insert_event` calls, and each external call
site whose outcome the code branches on takes that outcome as an
explicit oracle argument.  Python exceptions are modelled as outcome
constructors where the code catches them; a `raised` flag records
whether an exception escapes a function's boundary.
-/

namespace SmartHome

/-- Module-level constant `VIDEO_FILE_PATH = "recording.h264"` of camera.py. -/
def VIDEO_FILE_PATH : String := "recording.h264"

/-- Module-level constant `MP4_FILE_PATH = "recording.mp4"` of camera.py. -/
def MP4_FILE_PATH : String := "recording.mp4"

/-- Module-level constant `RECORDING_DURATION_SECONDS = 300` of camera.py. -/
def RECORDING_DURATION_SECONDS : Int := 300

/-- The local filesystem, abstracted to the set of paths that exist.
`os.path.exists p` is membership; `os.remove p` removes the path;
creating/writing a file adds the path. -/
structure FS where
  files : List String
deriving DecidableEq, Repr

/-- `os.path.exists`. -/
def FS.existsFile (fs : FS) (p : String) : Bool := fs.files.contains p

/-- `os.remove` (deterministic success: the path is dropped). -/
def FS.remove (fs : FS) (p : String) : FS := ⟨fs.files.filter (fun q => q ≠ p)⟩

/-- Creating (or overwriting) a file at a path: the path is present afterwards. -/
def FS.create (fs : FS) (p : String) : FS :=
  if fs.existsFile p then fs else ⟨p :: fs.files⟩

theorem FS.existsFile_remove (fs : FS) (p q : String) :
    (fs.remove p).existsFile q = (fs.existsFile q && !(q = p : Bool)) := by
  by_cases h : q = p <;>
    simp [FS.existsFile, FS.remove, List.elem_iff, h]

theorem FS.existsFile_create (fs : FS) (p q : String) :
    (fs.create p).existsFile q = (fs.existsFile q || (q = p : Bool)) := by
  by_cases hp : fs.existsFile p <;> by_cases h : q = p <;>
    simp_all [FS.create, FS.existsFile, List.elem_iff]

/-- The `if os.path.exists(p): os.remove(p)` cleanup idiom used
throughout camera.py. -/
def FS.removeIfExists (fs : FS) (p : String) : FS :=
  if fs.existsFile p then fs.remove p else fs

theorem FS.existsFile_removeIfExists (fs : FS) (p q : String) :
    (fs.removeIfExists p).existsFile q = (fs.existsFile q && !(q = p : Bool)) := by
  by_cases hp : fs.existsFile p <;> by_cases h : q = p <;>
    simp_all [FS.removeIfExists, FS.existsFile_remove]

/-! ## `src/utils/cloudflare.py`: `upload_file_to_r2` -/

/-- `os.path.basename`: the component after the last `/`. -/
def basename (p : String) : String := (p.splitOn "/").getLastD ""

/-- Environment for one `upload_file_to_r2` call: whether the local file
exists, whether `get_r2_client` returns a client (all three R2 environment
variables configured), and whether `client.upload_file` succeeds (it raises
on failure; the `except` clause turns that into `False`). -/
structure R2Env where
  fileExists : Bool
  clientOk : Bool
  uploadOk : Bool
deriving DecidableEq, Repr

/-- Observable outcome of `upload_file_to_r2`: return value, whether
`get_r2_client` was called, and the `(local_path, bucket, remote_key)`
arguments of each `upload_file` call actually made. -/
structure R2Result where
  ret : Bool
  clientCreated : Bool
  putCalls : List (String × String × String)
deriving DecidableEq, Repr

/-- `upload_file_to_r2(local_file_path, remote_file_name=None)` of
cloudflare.py lines 91-137.  The existence check precedes client creation;
`if not remote_file_name` treats both `None` and `""` as absent and
substitutes `os.path.basename(local_file_path)`; any exception from the
upload is caught and collapsed to `False`. -/
def upload_file_to_r2 (env : R2Env) (local_file_path : String)
    (remote_file_name : Option String) : R2Result :=
  if !env.fileExists then
    { ret := false, clientCreated := false, putCalls := [] }
  else if !env.clientOk then
    { ret := false, clientCreated := true, putCalls := [] }
  else
    let key := match remote_file_name with
      | none => basename local_file_path
      | some n => if n = "" then basename local_file_path else n
    { ret := env.uploadOk, clientCreated := true,
      putCalls := [(local_file_path, "smart-home", key)] }

/-! ## `src/sensors/camera.py`: `_upload_recording_to_r2` -/

/-- Outcome of the `upload_file_to_r2(MP4_FILE_PATH)` call made inside
`_upload_recording_to_r2` (the MP4 file exists at that point, so the
in-function existence check passes):
* `success`: the put succeeded, `upload_file_to_r2` returned `True`;
* `clientUnavailable`: `get_r2_client` returned `None`, no put attempted,
  returned `False`;
* `putFails`: the storage put was attempted and failed (exception caught
  inside `upload_file_to_r2`), returned `False`;
* `putRaises`: `upload_file_to_r2` itself raised (caught by the
  `except` in `_upload_recording_to_r2`). -/
inductive UploadOutcome
  | success
  | clientUnavailable
  | putFails
  | putRaises
deriving DecidableEq, Repr

/-- Observable outcome of `_upload_recording_to_r2`: return value, the
filesystem afterwards, the number of storage put attempts, and whether an
exception escaped the function. -/
structure UploadR2Result where
  ret : Bool
  fs : FS
  puts : Nat
  raised : Bool
deriving DecidableEq, Repr

/-- `_upload_recording_to_r2()` of camera.py lines 1022-1057.  If the MP4
is missing it returns `False`; on a successful upload it removes the local
MP4 and returns `True`; on a failed upload (or an exception, caught at
line 1053) it returns `False` and leaves the filesystem untouched. -/
def uploadRecordingToR2 (fs : FS) (o : UploadOutcome) : UploadR2Result :=
  if !fs.existsFile MP4_FILE_PATH then
    { ret := false, fs := fs, puts := 0, raised := false }
  else
    match o with
    | .success =>
        { ret := true, fs := fs.removeIfExists MP4_FILE_PATH, puts := 1, raised := false }
    | .clientUnavailable =>
        { ret := false, fs := fs, puts := 0, raised := false }
    | .putFails =>
        { ret := false, fs := fs, puts := 1, raised := false }
    | .putRaises =>
        { ret := false, fs := fs, puts := 1, raised := false }

/-! ## `src/sensors/camera.py`: `_convert_h264_to_mp4` -/

/-- The full outcome space of the
`subprocess.run(["ffmpeg", ...], check=False)` call in
`_convert_h264_to_mp4`:
* `completed code wrote`: the process ran and exited with `code`; `wrote`
  records whether ffmpeg left an output file at the output path;
* `fileNotFound`: the `ffmpeg` binary could not be located
  (`FileNotFoundError`, caught by the handler at line 335);
* `uncaughtOsError`: `subprocess.run` raised an `OSError` other than
  `FileNotFoundError` — e.g. a `PermissionError` when the binary is
  present on `PATH` but not executable — which neither handler matches,
  so it escapes the function.
With `check=False` and no timeout argument, `subprocess.run` raises no
`subprocess.SubprocessError`, so the handler at line 340 is unreachable
and that outcome is not modelled. -/
inductive SubprocessOutcome
  | completed (code : Nat) (wrote : Bool)
  | fileNotFound
  | uncaughtOsError
deriving DecidableEq, Repr

/-- Observable outcome of `_convert_h264_to_mp4` over the full outcome
space: `ret = some b` models the function returning the boolean `b`,
and `ret = none` models an exception escaping its boundary (the function
then produces no return value). -/
structure ConvertRun where
  ret : Option Bool
  fs : FS
deriving DecidableEq, Repr

/-- `_convert_h264_to_mp4(input_path, output_path)` of camera.py lines
292-349, over the full outcome space of the subprocess call.  Missing
input short-circuits to `False` before the subprocess runs; a located
process that exits non-zero yields `False`; exit zero yields `True`; a
missing binary is caught at line 335 and yields `False`; an `OSError`
matched by neither `except` clause escapes the boundary (`ret = none`). -/
def convert_h264_to_mp4_exn (fs : FS) (o : SubprocessOutcome)
    (input_path output_path : String) : ConvertRun :=
  if !fs.existsFile input_path then
    { ret := some false, fs := fs }
  else
    match o with
    | .fileNotFound => { ret := some false, fs := fs }
    | .uncaughtOsError => { ret := none, fs := fs }
    | .completed code wrote =>
        let fs1 := if wrote then fs.create output_path else fs
        { ret := some (code = 0), fs := fs1 }

/-- The outcomes of the subprocess call on which `_convert_h264_to_mp4`
*returns* (the `uncaughtOsError` outcome of `SubprocessOutcome` instead
escapes the function, and with it the whole segment-processing call
chain, which has no further handler until the worker loop).  The
segment-pipeline claims (spec Scenario E: "transcoder returns non-zero
exit") quantify over returning runs, so the pipeline functions below take
this fragment as their transcode oracle. -/
inductive RunOutcome
  | completed (code : Nat) (wrote : Bool)
  | fileNotFound
deriving DecidableEq, Repr

/-- Embedding of the returning fragment into the full outcome space. -/
def RunOutcome.toSubprocess : RunOutcome → SubprocessOutcome
  | .completed code wrote => .completed code wrote
  | .fileNotFound => .fileNotFound

/-- Observable outcome of a returning run of `_convert_h264_to_mp4`. -/
structure ConvertResult where
  ret : Bool
  fs : FS
deriving DecidableEq, Repr

/-- `_convert_h264_to_mp4(input_path, output_path)` of camera.py lines
292-349, restricted to the returning fragment of the subprocess outcome
space (see `RunOutcome`).  Missing input short-circuits to `False` before
the subprocess runs; a located process that exits non-zero yields
`False`; exit zero yields `True`; a missing binary is caught and yields
`False`. -/
def convert_h264_to_mp4 (fs : FS) (o : RunOutcome)
    (input_path output_path : String) : ConvertResult :=
  if !fs.existsFile input_path then
    { ret := false, fs := fs }
  else
    match o with
    | .fileNotFound => { ret := false, fs := fs }
    | .completed code wrote =>
        let fs1 := if wrote then fs.create output_path else fs
        { ret := code = 0, fs := fs1 }

/-- On the returning fragment the full model and the restricted model
agree: the restricted model is exactly the full model with the return
value forced to exist. -/
theorem convert_h264_to_mp4_exn_agrees (fs : FS) (o : RunOutcome)
    (inp out : String) :
    (convert_h264_to_mp4_exn fs o.toSubprocess inp out).ret =
      some (convert_h264_to_mp4 fs o inp out).ret ∧
    (convert_h264_to_mp4_exn fs o.toSubprocess inp out).fs =
      (convert_h264_to_mp4 fs o inp out).fs := by
  cases o <;> by_cases hex : fs.existsFile inp <;>
    simp_all [convert_h264_to_mp4_exn, convert_h264_to_mp4, RunOutcome.toSubprocess]

/-! ## `src/sensors/camera.py`: `_process_segment_after_recording_stops` -/

/-- Observable outcome of `_process_segment_after_recording_stops`:
the filesystem afterwards, the number of storage put attempts, and the
number of invocations of `_convert_h264_to_mp4`. -/
structure SegObs where
  fs : FS
  puts : Nat
  convCalls : Nat
deriving DecidableEq, Repr

/-- `_process_segment_after_recording_stops()` of camera.py lines 352-400.
If the raw H264 file is missing, nothing happens.  Otherwise the segment
is converted; on success `_upload_recording_to_r2` runs; on failure any
leftover MP4 is removed and no upload happens.  In all cases the raw H264
file is removed afterwards (if still present). -/
def process_segment (fs : FS) (conv : RunOutcome) (upl : UploadOutcome) : SegObs :=
  if !fs.existsFile VIDEO_FILE_PATH then
    { fs := fs, puts := 0, convCalls := 0 }
  else
    let c := convert_h264_to_mp4 fs conv VIDEO_FILE_PATH MP4_FILE_PATH
    if c.ret then
      let u := uploadRecordingToR2 c.fs upl
      { fs := u.fs.removeIfExists VIDEO_FILE_PATH, puts := u.puts, convCalls := 1 }
    else
      let fs1 := c.fs.removeIfExists MP4_FILE_PATH
      { fs := fs1.removeIfExists VIDEO_FILE_PATH, puts := 0, convCalls := 1 }

/-! ## `src/utils/database.py` collaborators and `_update_camera_state` -/

/-- The device registry as seen through the database helpers:
`device = some st` means the device row for `camera_01` exists and its
`current_state` column holds `st` (itself optional, matching
`device.get("current_state")`); `device = none` means `get_device_by_id`
returns `None`.  `updates` traces the `new_state` arguments of the
`update_device_state` calls, and `events` traces the
`(old_state, new_state)` pairs of the `insert_event` calls (all events
here have `event_type = "camera_changed"`). -/
structure Registry where
  device : Option (Option String)
  updates : List String
  events : List (Option String × String)
deriving DecidableEq, Repr

/-- `device.get("current_state") if device else None` in
`_update_camera_state`. -/
def Registry.oldState (reg : Registry) : Option String := reg.device.bind id

/-- `update_device_state(DEVICE_ID, new_state)`: sets the row's state when
the row exists (a Supabase update with an `eq` filter touches no rows for
a missing device) and records the call. -/
def Registry.updateState (reg : Registry) (ns : String) : Registry :=
  { reg with device := reg.device.map (fun _ => some ns),
             updates := reg.updates ++ [ns] }

/-- `insert_event(..., old_state, new_state)`: records the event. -/
def Registry.insertEvent (reg : Registry) (old : Option String) (ns : String) : Registry :=
  { reg with events := reg.events ++ [(old, ns)] }

/-- `_update_camera_state(home_id, new_state, message)` of camera.py lines
766-808.  A `new_state` of `"error"` is logged and the function returns
before any database call.  Otherwise the device state is updated, and an
event is inserted exactly when the old state differs from the new one
(in Python, `None != "x"` is true, so a missing row or missing column also
counts as different). -/
def updateCameraState (reg : Registry) (new_state : String) : Registry :=
  if new_state = "error" then reg
  else
    let old := reg.oldState
    let reg1 := reg.updateState new_state
    if old = some new_state then reg1
    else reg1.insertEvent old new_state

/-! ## `src/sensors/camera.py`: `_setup_camera` -/

/-- Outcome of one `Picamera2()` + `configure` + `start` initialization
attempt inside `_setup_camera`'s retry loop:
* `success`: the camera started;
* `busy`: `RuntimeError` containing "Failed to acquire camera: Device or
  resource busy";
* `permissionDenied`: `RuntimeError` containing "Permission denied";
* `otherRuntime`: any other `RuntimeError`;
* `otherExc`: any non-`RuntimeError` exception. -/
inductive InitOutcome
  | success
  | busy
  | permissionDenied
  | otherRuntime
  | otherExc
deriving DecidableEq, Repr

/-- Observable outcome of `_setup_camera`: return value, the number of
initialization attempts made, the backoff sleeps performed inside the
retry loop (the `time.sleep(3 + attempt * 2)` calls), and the number of
process-kill attempts made between retries. -/
structure SetupResult where
  ret : Bool
  attempts : Nat
  sleeps : List Nat
  kills : Nat
deriving DecidableEq, Repr

/-- The `for attempt in range(max_retries)` loop of `_setup_camera`
(camera.py lines 130-212), recursing on the remaining attempt budget.
In the `busy` branch the code first makes a best-effort process-kill
(itself wrapped in `try ... except Exception: pass`, so its outcome
cannot influence control flow), then sleeps `3 + attempt * 2` seconds;
if this was the last attempt it logs and returns `False`.  A
"permission denied" `RuntimeError`, any other `RuntimeError`, and any
other exception all return `False` from inside the loop without
retrying. -/
def setupCameraAux (oracle : Nat → InitOutcome) :
    Nat → Nat → List Nat → Nat → SetupResult
  | 0, attempt, acc, kills => ⟨false, attempt, acc.reverse, kills⟩
  | remaining + 1, attempt, acc, kills =>
    match oracle attempt with
    | .success => ⟨true, attempt + 1, acc.reverse, kills⟩
    | .busy =>
        let sl := 3 + attempt * 2
        if remaining = 0 then ⟨false, attempt + 1, (sl :: acc).reverse, kills + 1⟩
        else setupCameraAux oracle remaining (attempt + 1) (sl :: acc) (kills + 1)
    | .permissionDenied => ⟨false, attempt + 1, acc.reverse, kills⟩
    | .otherRuntime => ⟨false, attempt + 1, acc.reverse, kills⟩
    | .otherExc => ⟨false, attempt + 1, acc.reverse, kills⟩

/-- `_setup_camera()` of camera.py lines 91-223: the retry loop with
`max_retries = 3`, starting at attempt 0.  The `killRaises` oracle gives
the outcome of the best-effort process-kill before each retry; because
the source wraps that call in `except Exception: pass`, the result cannot
depend on it, which the definition makes explicit by discarding it. -/
def setup_camera (oracle : Nat → InitOutcome) (_killRaises : Nat → Bool) : SetupResult :=
  setupCameraAux oracle 3 0 [] 0

/-! ## `src/sensors/camera.py`: `start_camera_streaming` -/

/-- The path `start_camera_streaming` takes:
* `noop`: worker alive, flag set, registry row says `online` — return;
* `reconcile`: worker alive, flag set, registry row exists with a
  non-`online` state — `_update_camera_state(home_id, "online", ...)`,
  then return;
* `fullRestart`: the code falls through to
  `stop_camera_streaming` followed by the full setup sequence. -/
inductive StartAction
  | noop
  | reconcile
  | fullRestart
deriving DecidableEq, Repr

/-- Observable outcome of the guard portion of `start_camera_streaming`:
which path was taken, and the registry after the guard (the registry
effects of the full restart path are not needed by any claim and are not
modelled here). -/
structure StartObs where
  action : StartAction
  reg : Registry
deriving DecidableEq, Repr

/-- The idempotence guard of `start_camera_streaming(home_id)` (camera.py
lines 626-655).  The guard fires only when
`_camera_thread and _camera_thread.is_alive() and _is_running.is_set()`;
inside it, a registry row in state `online` means no action, a row in any
other state is reconciled to `online`, and a missing row falls through to
the full stop-then-start sequence. -/
def startCameraStreaming (threadAlive isRunningSet : Bool) (reg : Registry) : StartObs :=
  if threadAlive && isRunningSet then
    match reg.device with
    | some st =>
        if st = some "online" then ⟨.noop, reg⟩
        else ⟨.reconcile, updateCameraState reg "online"⟩
    | none => ⟨.fullRestart, reg⟩
  else ⟨.fullRestart, reg⟩

/-! ## `src/sensors/camera.py`: `stop_camera_streaming` (already stopped) -/

/-- Observable outcome of `stop_camera_streaming` on the already-stopped
path: the number of hardware operations performed on the device handle
(`stop_recording` / `close` calls) and the registry afterwards. -/
structure StopObs where
  hardwareOps : Nat
  reg : Registry
deriving DecidableEq, Repr

/-- `stop_camera_streaming(home_id)` of camera.py lines 811-932,
restricted to the already-stopped configuration (`_picamera_object is
None` and no worker thread alive): the cancellation flag is cleared, the
thread join is skipped, and the `else` branch at lines 916-928 runs —
it reads the registry and, when the device row exists with a state other
than `"error"` or `"offline"`, calls
`_update_camera_state(home_id, "offline", ...)`.  No device-handle
operation is possible since the handle is `None`. -/
def stopCameraAlreadyStopped (reg : Registry) : StopObs :=
  match reg.device with
  | some st =>
      if st = some "error" ∨ st = some "offline" then ⟨0, reg⟩
      else ⟨0, updateCameraState reg "offline"⟩
  | none => ⟨0, reg⟩

/-! ## `src/sensors/camera.py`: `_handle_recording` -/

/-- Observable outcome of `_handle_recording`: the filesystem, the number
of storage put attempts, of `_convert_h264_to_mp4` invocations, of
`stop_recording` calls and of `start_recording` calls made during the
tick, plus the returned `(recording_start_time, is_recording)` pair. -/
structure RecObs where
  fs : FS
  puts : Nat
  convCalls : Nat
  stopCalls : Nat
  startCalls : Nat
  segStart : Int
  isRec : Bool
deriving DecidableEq, Repr

/-- `_handle_recording(current_time, recording_start_time, is_recording)`
of camera.py lines 403-476.  With a `None` camera object it logs and
returns the state unchanged.  When not recording it removes any orphaned
MP4 and starts a new raw recording (`start_recording` opens
`VIDEO_FILE_PATH` for writing).  When recording and the segment duration
is reached it stops the recording, processes the completed segment
(transcode + upload + raw cleanup), removes any stale MP4 left over, and
starts a new raw recording, returning `(current_time, True)`.  Otherwise
the state is returned unchanged. -/
def handle_recording (camPresent : Bool) (fs : FS) (conv : RunOutcome)
    (upl : UploadOutcome) (current_time recording_start_time : Int)
    (is_recording : Bool) : RecObs :=
  if !camPresent then
    ⟨fs, 0, 0, 0, 0, recording_start_time, is_recording⟩
  else if !is_recording then
    let fs1 := fs.removeIfExists MP4_FILE_PATH
    ⟨fs1.create VIDEO_FILE_PATH, 0, 0, 0, 1, current_time, true⟩
  else if current_time - recording_start_time ≥ RECORDING_DURATION_SECONDS then
    let p := process_segment fs conv upl
    let fs1 := p.fs.removeIfExists MP4_FILE_PATH
    ⟨fs1.create VIDEO_FILE_PATH, p.puts, p.convCalls, 1, 1, current_time, true⟩
  else
    ⟨fs, 0, 0, 0, 0, recording_start_time, is_recording⟩

/-! ## `src/sensors/camera.py`: `_camera_loop` -/

/-- Outcome of the frame capture + publish stage of one loop tick. -/
inductive CaptureOutcome
  | ok
  | raises (msg : String)
deriving DecidableEq, Repr

/-- Outcome of the `_handle_recording` stage of one loop tick. -/
inductive RecOutcome
  | ok
  | raises (msg : String)
deriving DecidableEq, Repr

/-- The environment of one tick of `_camera_loop`: whether
`_picamera_object` is non-`None`, and the outcomes of the two fallible
per-tick stages. -/
structure TickEnv where
  camPresent : Bool
  capture : CaptureOutcome
  recording : RecOutcome

/-- Result of one tick of the `while _is_running.is_set()` body:
`cont` continues with the next iteration, `propagate m` would let the
exception `m` escape the body. -/
inductive TickResult
  | cont
  | propagate (msg : String)
deriving DecidableEq, Repr

/-- One iteration of the loop body of `_camera_loop` (camera.py lines
509-559).  A `None` camera object logs, sleeps 1s and continues.  An
exception during capture/publish is caught at lines 518-528 (log, sleep
1s, `continue`).  An exception from `_handle_recording` is caught at
lines 545-551 (log, sleep 1s).  Every fallible stage sits under a
handler, so the body always yields `cont`. -/
def camera_tick (e : TickEnv) : TickResult :=
  if !e.camPresent then .cont
  else
    match e.capture with
    | .raises _ => .cont
    | .ok =>
        match e.recording with
        | .raises _ => .cont
        | .ok => .cont

/-- How a bounded run of `_camera_loop`'s `while` loop ends:
`cancelled` via the cancellation flag, `exception m` via an exception
escaping a tick, `fuelOut` when the observation budget ran out while the
loop was still running. -/
inductive LoopExit
  | cancelled
  | exception (msg : String)
  | fuelOut
deriving DecidableEq, Repr

/-- The `while _is_running.is_set()` loop of `_camera_loop`, observed for
`fuel` iterations starting at iteration `i`; `flag j` gives the value of
`_is_running.is_set()` read at the top of iteration `j`, and `envs j` the
tick environment of iteration `j`. -/
def camera_loop (flag : Nat → Bool) (envs : Nat → TickEnv) :
    Nat → Nat → LoopExit
  | 0, _ => .fuelOut
  | fuel + 1, i =>
    if flag i then
      match camera_tick (envs i) with
      | .cont => camera_loop flag envs fuel (i + 1)
      | .propagate m => .exception m
    else .cancelled

/-! ## Theorems settling the claims -/

/-- Claim C1, counterexample: with the deliverable present and a failing
storage put, `_upload_recording_to_r2` returns `False` but does **not**
delete the local MP4 file — the deletion at lines 1039-1048 runs only on
the success branch, so the claim "still deletes the local deliverable
file" is false on the code. -/
theorem upload_failure_keeps_mp4_counterexample :
    (uploadRecordingToR2 ⟨["recording.mp4"]⟩ UploadOutcome.putFails).ret = false ∧
    (uploadRecordingToR2 ⟨["recording.mp4"]⟩ UploadOutcome.putFails).fs.existsFile
      "recording.mp4" = true := by
  constructor <;> rfl

/-- Claim C1 (amended): for every call of `_upload_recording_to_r2` where
the deliverable file exists and the object-storage put fails (the put
returns failure or raises), the function **retains** the local
deliverable file unchanged, returns `False`, and never raises past its
boundary. -/
theorem upload_recording_failure_spec (fs : FS) (o : UploadOutcome)
    (hex : fs.existsFile MP4_FILE_PATH = true)
    (ho : o = UploadOutcome.putFails ∨ o = UploadOutcome.putRaises) :
    (uploadRecordingToR2 fs o).ret = false ∧
    (uploadRecordingToR2 fs o).fs = fs ∧
    (uploadRecordingToR2 fs o).raised = false := by
  rcases ho with h | h <;> subst h <;> simp [uploadRecordingToR2, hex]

/-- Witness for the amended claim C1 at a concrete state. -/
theorem upload_recording_failure_spec_witness :
    (uploadRecordingToR2 ⟨["recording.mp4"]⟩ UploadOutcome.putRaises).ret = false ∧
    (uploadRecordingToR2 ⟨["recording.mp4"]⟩ UploadOutcome.putRaises).fs =
      ⟨["recording.mp4"]⟩ ∧
    (uploadRecordingToR2 ⟨["recording.mp4"]⟩ UploadOutcome.putRaises).raised = false :=
  upload_recording_failure_spec ⟨["recording.mp4"]⟩ UploadOutcome.putRaises
    (by rfl) (Or.inr rfl)

/-- Claim C2: `_setup_camera` retries a busy device up to 3 attempts with
backoff sleeps of 3s, 5s and 7s and a best-effort process-kill between
attempts whose outcome cannot influence the result; a permission-denied
error fails immediately after exactly one attempt with no retry and no
backoff; any other setup exception is immediately fatal after one
attempt. -/
theorem setup_camera_retry_policy (oracle : Nat → InitOutcome) (k k' : Nat → Bool) :
    (setup_camera oracle k = setup_camera oracle k') ∧
    (oracle 0 = InitOutcome.permissionDenied →
      setup_camera oracle k = ⟨false, 1, [], 0⟩) ∧
    (oracle 0 = InitOutcome.otherRuntime →
      setup_camera oracle k = ⟨false, 1, [], 0⟩) ∧
    (oracle 0 = InitOutcome.otherExc →
      setup_camera oracle k = ⟨false, 1, [], 0⟩) ∧
    ((∀ i, i < 3 → oracle i = InitOutcome.busy) →
      setup_camera oracle k = ⟨false, 3, [3, 5, 7], 3⟩) ∧
    (oracle 0 = InitOutcome.busy → oracle 1 = InitOutcome.success →
      setup_camera oracle k = ⟨true, 2, [3], 1⟩) ∧
    (oracle 0 = InitOutcome.busy → oracle 1 = InitOutcome.busy →
      oracle 2 = InitOutcome.success →
      setup_camera oracle k = ⟨true, 3, [3, 5], 2⟩) := by
  refine ⟨rfl, ?_, ?_, ?_, ?_, ?_, ?_⟩
  · intro h; simp [setup_camera, setupCameraAux, h]
  · intro h; simp [setup_camera, setupCameraAux, h]
  · intro h; simp [setup_camera, setupCameraAux, h]
  · intro h
    have h0 := h 0 (by norm_num)
    have h1 := h 1 (by norm_num)
    have h2 := h 2 (by norm_num)
    simp [setup_camera, setupCameraAux, h0, h1, h2]
  · intro h0 h1; simp [setup_camera, setupCameraAux, h0, h1]
  · intro h0 h1 h2; simp [setup_camera, setupCameraAux, h0, h1, h2]

/-- Witness for claim C2: a permission-denied first attempt gives one
attempt and immediate failure; an all-busy oracle gives three attempts
with sleeps 3, 5, 7. -/
theorem setup_camera_retry_policy_witness :
    setup_camera (fun _ => InitOutcome.permissionDenied) (fun _ => false) =
      ⟨false, 1, [], 0⟩ ∧
    setup_camera (fun _ => InitOutcome.busy) (fun _ => false) =
      ⟨false, 3, [3, 5, 7], 3⟩ :=
  ⟨(setup_camera_retry_policy (fun _ => InitOutcome.permissionDenied)
      (fun _ => false) (fun _ => false)).2.1 rfl,
   (setup_camera_retry_policy (fun _ => InitOutcome.busy)
      (fun _ => false) (fun _ => false)).2.2.2.2.1 (fun _ _ => rfl)⟩

/-- Claim C3: `_update_camera_state` inserts a registry event exactly
when the new state differs from the last known state, and a transition
into `"error"` is only logged: it performs no registry state update and
inserts no event. -/
theorem update_camera_state_event_policy (reg : Registry) (ns : String) :
    (ns = "error" → updateCameraState reg ns = reg) ∧
    (ns ≠ "error" →
      (reg.oldState ≠ some ns →
        (updateCameraState reg ns).events = reg.events ++ [(reg.oldState, ns)]) ∧
      (reg.oldState = some ns →
        (updateCameraState reg ns).events = reg.events) ∧
      (updateCameraState reg ns).updates = reg.updates ++ [ns]) := by
  constructor
  · intro h; simp [updateCameraState, h]
  · intro h
    by_cases hold : reg.oldState = some ns <;>
      simp [updateCameraState, Registry.updateState, Registry.insertEvent, h, hold]

/-- Witness for claim C3: an `offline → online` call inserts one event
and updates the state; an `error` call leaves the registry untouched. -/
theorem update_camera_state_event_policy_witness :
    (updateCameraState ⟨some (some "offline"), [], []⟩ "online").events =
      [] ++ [(some "offline", "online")] ∧
    updateCameraState ⟨some (some "online"), ["online"], []⟩ "error" =
      ⟨some (some "online"), ["online"], []⟩ :=
  ⟨((update_camera_state_event_policy ⟨some (some "offline"), [], []⟩ "online").2
      (by decide)).1 (by decide),
   (update_camera_state_event_policy ⟨some (some "online"), ["online"], []⟩ "error").1
      rfl⟩

/-- Claim C4, counterexample: with the worker thread alive and the
cancellation flag set but the device row missing from the registry,
`start_camera_streaming` proceeds with the full stop-then-start sequence
(lines 642-655) — so "a full stop-then-start sequence runs only when the
worker is not alive" is false on the code. -/
theorem start_full_restart_while_alive_counterexample :
    (startCameraStreaming true true ⟨none, [], []⟩).action = StartAction.fullRestart :=
  rfl

/-- Claim C4 (amended): while the worker thread is alive and the
cancellation flag is set, a registry row in state `online` makes the call
a no-op, and a row in any other state is reconciled to `online` without
restarting the worker; the full stop-then-start sequence runs when the
device row is missing from the registry, when the worker is not alive, or
when the cancellation flag is cleared. -/
theorem start_streaming_idempotence (alive flag : Bool) (reg : Registry) :
    (alive = true → flag = true → reg.device = some (some "online") →
      startCameraStreaming alive flag reg = ⟨StartAction.noop, reg⟩) ∧
    (alive = true → flag = true → ∀ st, reg.device = some st →
      st ≠ some "online" →
      (startCameraStreaming alive flag reg).action = StartAction.reconcile ∧
      (startCameraStreaming alive flag reg).reg.device = some (some "online")) ∧
    (alive = true → flag = true → reg.device = none →
      (startCameraStreaming alive flag reg).action = StartAction.fullRestart) ∧
    (alive = false →
      (startCameraStreaming alive flag reg).action = StartAction.fullRestart) ∧
    (flag = false →
      (startCameraStreaming alive flag reg).action = StartAction.fullRestart) := by
  refine ⟨?_, ?_, ?_, ?_, ?_⟩
  · intro ha hf hdev
    simp [startCameraStreaming, ha, hf, hdev]
  · intro ha hf st hdev hne
    subst ha; subst hf
    simp only [startCameraStreaming, Bool.and_self, if_pos rfl, hdev]
    simp [hne, updateCameraState, Registry.updateState, Registry.insertEvent, hdev]
    split <;> rfl
  · intro ha hf hdev; simp [startCameraStreaming, ha, hf, hdev]
  · intro ha; simp [startCameraStreaming, ha]
  · intro hf; simp [startCameraStreaming, hf]

/-- Witness for the amended claim C4: an alive worker with an `offline`
registry row is reconciled to `online` without a restart. -/
theorem start_streaming_idempotence_witness :
    (startCameraStreaming true true ⟨some (some "offline"), [], []⟩).action =
      StartAction.reconcile ∧
    (startCameraStreaming true true ⟨some (some "offline"), [], []⟩).reg.device =
      some (some "online") :=
  (start_streaming_idempotence true true ⟨some (some "offline"), [], []⟩).2.1
    rfl rfl (some "offline") rfl (by decide)

/-- Claim C5, counterexample: with no device handle held and no worker
thread alive but a registry row in state `online`,
`stop_camera_streaming` mutates the registry — it calls
`update_device_state(DEVICE_ID, "offline")` (and inserts an event)
through `_update_camera_state` at lines 921-928 — so "performs no
registry mutation" is false on the code. -/
theorem stop_already_stopped_mutates_registry_counterexample :
    (stopCameraAlreadyStopped ⟨some (some "online"), [], []⟩).reg.updates =
      ["offline"] :=
  rfl

/-- Claim C5 (amended): a `stop_camera_streaming` call made when the
camera is already stopped (no device handle held and no worker thread
alive) performs no hardware operation; it performs no registry mutation
when the device row is absent or already shows `offline` or `error`, and
otherwise reconciles the registry row to `offline`. -/
theorem stop_already_stopped_spec (reg : Registry) :
    (stopCameraAlreadyStopped reg).hardwareOps = 0 ∧
    (reg.device = none → stopCameraAlreadyStopped reg = ⟨0, reg⟩) ∧
    (reg.device = some (some "offline") → stopCameraAlreadyStopped reg = ⟨0, reg⟩) ∧
    (reg.device = some (some "error") → stopCameraAlreadyStopped reg = ⟨0, reg⟩) ∧
    (∀ st, reg.device = some st → st ≠ some "offline" → st ≠ some "error" →
      (stopCameraAlreadyStopped reg).reg.device = some (some "offline")) := by
  refine ⟨?_, ?_, ?_, ?_, ?_⟩
  · rcases hdev : reg.device with _ | st
    · simp [stopCameraAlreadyStopped, hdev]
    · by_cases hs : st = some "error" ∨ st = some "offline" <;>
        simp [stopCameraAlreadyStopped, hdev, hs]
  · intro hdev; simp [stopCameraAlreadyStopped, hdev]
  · intro hdev; simp [stopCameraAlreadyStopped, hdev]
  · intro hdev; simp [stopCameraAlreadyStopped, hdev]
  · intro st hdev hno hne
    have hs : ¬(st = some "error" ∨ st = some "offline") := by
      rintro (h | h) <;> simp_all
    simp [stopCameraAlreadyStopped, hdev, hs, updateCameraState,
      Registry.updateState, Registry.insertEvent]
    split <;> rfl

/-- Witness for the amended claim C5 at a concrete registry. -/
theorem stop_already_stopped_spec_witness :
    stopCameraAlreadyStopped ⟨some (some "offline"), [], []⟩ =
      ⟨0, ⟨some (some "offline"), [], []⟩⟩ ∧
    (stopCameraAlreadyStopped ⟨some (some "initializing"), [], []⟩).reg.device =
      some (some "offline") :=
  ⟨(stop_already_stopped_spec ⟨some (some "offline"), [], []⟩).2.2.1 rfl,
   (stop_already_stopped_spec ⟨some (some "initializing"), [], []⟩).2.2.2.2
      (some "initializing") rfl (by decide) (by decide)⟩

/-- Claim C7, counterexample: with the raw input present and the
subprocess call raising an `OSError` matched by neither `except` clause
(e.g. a `PermissionError` when `ffmpeg` is present but not executable),
`_convert_h264_to_mp4` produces no return value — the exception escapes
its boundary — so "never raises past its boundary" is false on the code,
which catches only `FileNotFoundError` and `subprocess.SubprocessError`
(camera.py lines 335 and 340). -/
theorem convert_uncaught_oserror_counterexample :
    (convert_h264_to_mp4_exn ⟨["recording.h264"]⟩ SubprocessOutcome.uncaughtOsError
      "recording.h264" "recording.mp4").ret = none :=
  rfl

/-- Claim C7 (amended): `_convert_h264_to_mp4` raises past its boundary
exactly when the raw input exists and the subprocess call raises an
`OSError` caught by neither handler; on every other outcome it returns,
returning `False` exactly when the raw input file is missing, the encoder
binary cannot be located, or the encoder process exits non-zero, and
`True` when the input exists and the process exits zero. -/
theorem convert_h264_to_mp4_exn_spec (fs : FS) (inp out : String)
    (o : SubprocessOutcome) :
    ((convert_h264_to_mp4_exn fs o inp out).ret = none ↔
      fs.existsFile inp = true ∧ o = SubprocessOutcome.uncaughtOsError) ∧
    ((convert_h264_to_mp4_exn fs o inp out).ret = some false ↔
      fs.existsFile inp = false ∨
      (fs.existsFile inp = true ∧ o = SubprocessOutcome.fileNotFound) ∨
      (fs.existsFile inp = true ∧
        ∃ c w, o = SubprocessOutcome.completed c w ∧ c ≠ 0)) ∧
    (fs.existsFile inp = true → ∀ w, o = SubprocessOutcome.completed 0 w →
      (convert_h264_to_mp4_exn fs o inp out).ret = some true) := by
  by_cases hex : fs.existsFile inp <;> cases o <;>
    simp_all [convert_h264_to_mp4_exn]

/-- Witness for the amended claim C7: a present input and a zero exit
yield a returned `True`. -/
theorem convert_h264_to_mp4_exn_spec_witness :
    (convert_h264_to_mp4_exn ⟨["recording.h264"]⟩
      (SubprocessOutcome.completed 0 true)
      "recording.h264" "recording.mp4").ret = some true :=
  (convert_h264_to_mp4_exn_spec ⟨["recording.h264"]⟩ "recording.h264"
    "recording.mp4" (SubprocessOutcome.completed 0 true)).2.2 (by rfl) true rfl

/-- Claim C10: `upload_file_to_r2` on a missing local file returns
`False` without creating a storage client or attempting any put; when the
remote file name is omitted, the remote key of the put is exactly the
basename of the local path. -/
theorem upload_file_to_r2_spec (env : R2Env) (p : String) (r : Option String) :
    (env.fileExists = false →
      upload_file_to_r2 env p r =
        { ret := false, clientCreated := false, putCalls := [] }) ∧
    (r = none → ∀ c ∈ (upload_file_to_r2 env p r).putCalls, c.2.2 = basename p) := by
  constructor
  · intro h; simp [upload_file_to_r2, h]
  · intro hr
    subst hr
    rcases env with ⟨fe, co, uo⟩
    cases fe <;> cases co <;> cases uo <;>
      simp [upload_file_to_r2]

/-- Witness for claim C10: a missing file short-circuits, and an omitted
remote name uses the basename of the local path. -/
theorem upload_file_to_r2_spec_witness :
    upload_file_to_r2 ⟨false, true, true⟩ "videos/recording.mp4" none =
      { ret := false, clientCreated := false, putCalls := [] } ∧
    ∀ c ∈ (upload_file_to_r2 ⟨true, true, true⟩ "videos/recording.mp4" none).putCalls,
      c.2.2 = basename "videos/recording.mp4" :=
  ⟨(upload_file_to_r2_spec ⟨false, true, true⟩ "videos/recording.mp4" none).1 rfl,
   (upload_file_to_r2_spec ⟨true, true, true⟩ "videos/recording.mp4" none).2 rfl⟩

/-- The two segment filenames are distinct paths. -/
theorem video_ne_mp4 : (VIDEO_FILE_PATH = MP4_FILE_PATH) = False := by
  simp [VIDEO_FILE_PATH, MP4_FILE_PATH]

/-- The two segment filenames are distinct paths (other direction). -/
theorem mp4_ne_video : (MP4_FILE_PATH = VIDEO_FILE_PATH) = False := by
  simp [VIDEO_FILE_PATH, MP4_FILE_PATH]

/-- Claim C6: in every `_process_segment_after_recording_stops` run whose
transcode step fails, the raw H264 file is deleted, any leftover MP4 file
is removed, and no storage put is attempted for that segment. -/
theorem process_segment_transcode_failure (fs : FS) (conv : RunOutcome)
    (upl : UploadOutcome)
    (hraw : fs.existsFile VIDEO_FILE_PATH = true)
    (hfail : (convert_h264_to_mp4 fs conv VIDEO_FILE_PATH MP4_FILE_PATH).ret = false) :
    (process_segment fs conv upl).fs.existsFile VIDEO_FILE_PATH = false ∧
    (process_segment fs conv upl).fs.existsFile MP4_FILE_PATH = false ∧
    (process_segment fs conv upl).puts = 0 := by
  simp [process_segment, hraw, hfail, FS.existsFile_removeIfExists, mp4_ne_video]

/-- Witness for claim C6: a non-zero encoder exit on a present raw file
leaves neither segment file behind and makes no put attempt. -/
theorem process_segment_transcode_failure_witness :
    (process_segment ⟨["recording.h264"]⟩ (RunOutcome.completed 1 true)
      UploadOutcome.success).fs.existsFile "recording.h264" = false ∧
    (process_segment ⟨["recording.h264"]⟩ (RunOutcome.completed 1 true)
      UploadOutcome.success).fs.existsFile "recording.mp4" = false ∧
    (process_segment ⟨["recording.h264"]⟩ (RunOutcome.completed 1 true)
      UploadOutcome.success).puts = 0 :=
  process_segment_transcode_failure ⟨["recording.h264"]⟩ (RunOutcome.completed 1 true)
    UploadOutcome.success (by rfl) (by rfl)

/-- Claim C8: on a recording-state tick of `_handle_recording` with a
live camera handle and the raw segment file open, reaching the rotation
duration stops the current recording, hands the segment to
transcode+upload, removes any stale MP4 before opening the new raw file,
opens a new raw recording, and returns `(current_time, True)`; a tick
short of the duration returns the state unchanged with no side effect. -/
theorem handle_recording_rotation (fs : FS) (conv : RunOutcome)
    (upl : UploadOutcome) (now segStart : Int)
    (hraw : fs.existsFile VIDEO_FILE_PATH = true) :
    (now - segStart ≥ RECORDING_DURATION_SECONDS →
      (handle_recording true fs conv upl now segStart true).stopCalls = 1 ∧
      (handle_recording true fs conv upl now segStart true).startCalls = 1 ∧
      (handle_recording true fs conv upl now segStart true).convCalls = 1 ∧
      (conv = RunOutcome.completed 0 true → upl ≠ UploadOutcome.clientUnavailable →
        (handle_recording true fs conv upl now segStart true).puts = 1) ∧
      (handle_recording true fs conv upl now segStart true).segStart = now ∧
      (handle_recording true fs conv upl now segStart true).isRec = true ∧
      (handle_recording true fs conv upl now segStart true).fs.existsFile
        MP4_FILE_PATH = false ∧
      (handle_recording true fs conv upl now segStart true).fs.existsFile
        VIDEO_FILE_PATH = true) ∧
    (¬ now - segStart ≥ RECORDING_DURATION_SECONDS →
      handle_recording true fs conv upl now segStart true =
        ⟨fs, 0, 0, 0, 0, segStart, true⟩) := by
  constructor
  · intro hdur
    refine ⟨?_, ?_, ?_, ?_, ?_, ?_, ?_, ?_⟩
    · simp [handle_recording, hdur]
    · simp [handle_recording, hdur]
    · simp only [handle_recording, hdur, process_segment, hraw]
      simp only [Bool.not_true, Bool.false_eq_true, if_false, ite_true,
        Bool.not_false]
      split <;> rfl
    · intro hconv hupl
      subst hconv
      cases upl <;>
        simp_all [handle_recording, hdur, process_segment, hraw,
          convert_h264_to_mp4, uploadRecordingToR2, FS.existsFile_create,
          mp4_ne_video]
    · simp [handle_recording, hdur]
    · simp [handle_recording, hdur]
    · simp [handle_recording, hdur, FS.existsFile_create,
        FS.existsFile_removeIfExists, mp4_ne_video]
    · simp [handle_recording, hdur, FS.existsFile_create]
  · intro hdur
    simp [handle_recording, hdur]

/-- Witness for claim C8 at a concrete rotation tick and a concrete
short-of-duration tick. -/
theorem handle_recording_rotation_witness :
    (handle_recording true ⟨["recording.h264"]⟩ (RunOutcome.completed 0 true)
      UploadOutcome.success 300 0 true).puts = 1 ∧
    handle_recording true ⟨["recording.h264"]⟩ (RunOutcome.completed 0 true)
      UploadOutcome.success 299 0 true = ⟨⟨["recording.h264"]⟩, 0, 0, 0, 0, 0, true⟩ :=
  ⟨((handle_recording_rotation ⟨["recording.h264"]⟩ (RunOutcome.completed 0 true)
      UploadOutcome.success 300 0 (by rfl)).1 (by norm_num [RECORDING_DURATION_SECONDS])).2.2.2.1
      rfl (by simp),
   (handle_recording_rotation ⟨["recording.h264"]⟩ (RunOutcome.completed 0 true)
      UploadOutcome.success 299 0 (by rfl)).2
      (by norm_num [RECORDING_DURATION_SECONDS])⟩

/-- Every tick of the `_camera_loop` body finishes with `cont`: each
fallible stage sits under a `try`/`except` handler that logs, sleeps and
continues. -/
theorem camera_tick_eq_cont (e : TickEnv) : camera_tick e = TickResult.cont := by
  rcases e with ⟨cp, cap, rec⟩
  cases cp <;> cases cap <;> cases rec <;> rfl

/-- Claim C9: no exception raised by a per-tick operation of
`_camera_loop` propagates out of the loop: every tick is contained, the
loop never ends in an exception, and it reaches the `cancelled` exit only
because the cancellation flag was observed cleared at the top of some
iteration. -/
theorem camera_loop_containment (flag : Nat → Bool) (envs : Nat → TickEnv)
    (fuel i : Nat) :
    (∀ j, camera_tick (envs j) = TickResult.cont) ∧
    (∀ m, camera_loop flag envs fuel i ≠ LoopExit.exception m) ∧
    (camera_loop flag envs fuel i = LoopExit.cancelled →
      ∃ j, i ≤ j ∧ j < i + fuel ∧ flag j = false) := by
  refine ⟨fun j => camera_tick_eq_cont (envs j), ?_, ?_⟩
  · induction fuel generalizing i with
    | zero => intro m; simp [camera_loop]
    | succ n ih =>
      intro m
      by_cases hf : flag i
      · simp only [camera_loop, hf, if_true, camera_tick_eq_cont]
        exact ih (i + 1) m
      · simp [camera_loop, hf]
  · induction fuel generalizing i with
    | zero => intro h; simp [camera_loop] at h
    | succ n ih =>
      intro h
      by_cases hf : flag i
      · simp only [camera_loop, hf, if_true, camera_tick_eq_cont] at h
        obtain ⟨j, hj1, hj2, hj3⟩ := ih (i + 1) h
        exact ⟨j, by omega, by omega, hj3⟩
      · exact ⟨i, le_refl i, by omega, by simpa using hf⟩

/-- Witness for claim C9: a loop whose flag clears at iteration 2, with a
capture exception on every tick, still exits via cancellation. -/
theorem camera_loop_containment_witness :
    ∃ j, 0 ≤ j ∧ j < 0 + 3 ∧ (fun n => decide (n < 2)) j = false :=
  (camera_loop_containment (fun n => decide (n < 2))
    (fun _ => ⟨true, CaptureOutcome.raises "capture failed", RecOutcome.ok⟩)
    3 0).2.2 (by rfl)

end SmartHome
